import Mathlib

/-!
Verification of the rdwm window manager core (src/rdwm.rs, with the older
embedded copy in src/main.rs) against its natural-language specification.

The embedding is a shallow one: every X request issued by the manager is
recorded in a trace (a plain list), machine integers are modelled as Nat
(all the quantities involved are screen coordinates and collection indices,
which the source keeps in u32/usize and never lets wrap), the i32-to-u32
casts of the source are modelled explicitly, and every Rust panic
(assert!, expect, unwrap, index out of bounds, usize underflow) is
modelled by returning none.

Since XCreateSimpleWindow obtains a fresh window identifier from the
server, the identifier the server would hand back is passed in as an
explicit argument; likewise the reply of XGetWindowAttributes is passed
in as an Option value (none modelling a failed Status).
-/

namespace Rdwm

/-- One X protocol request, as issued by the manager.  Only the arguments
the source actually computes are recorded. -/
inductive XReq where
  | createSimpleWindow (parent x y w h border : Nat)
  | selectInput (w : Nat)
  | reparentWindow (w parent x y : Nat)
  | mapWindow (w : Nat)
  | unmapWindow (w : Nat)
  | destroyWindow (w : Nat)
  | grabButton (w : Nat)
  | addToSaveSet (w : Nat)
  | moveResizeWindow (w x y width height : Nat)
  | setWindowBorder (w color : Nat)
  | configureWindow (w : Nat)
  | ungrabKey (w : Nat)
  deriving Repr, DecidableEq

/-- The Quad struct of rdwm.rs: a 4-tuple of u32 coordinates. -/
structure Quad where
  x : Nat
  y : Nat
  w : Nat
  h : Nat
  deriving Repr, DecidableEq

/-- Quad::default. -/
def Quad.default : Quad := { x := 0, y := 0, w := 0, h := 0 }

/-- Quad::from_size (note the source takes height first). -/
def Quad.fromSize (h w : Nat) : Quad := { x := 0, y := 0, w := w, h := h }

/-- Quad::from_coords. -/
def Quad.fromCoords (x y : Nat) : Quad := { x := x, y := y, h := 0, w := 0 }

/-- The Rust cast i32 -> u32 (`as u32`), which wraps modulo 2^32. -/
def u32ofInt (i : Int) : Nat := (i % (2 ^ 32)).toNat

/-- The fields of Xlib XWindowAttributes the source reads. map_state is
kept as the raw integer the X server reports (IsViewable = 2). -/
structure XWindowAttributes where
  x : Int
  y : Int
  width : Int
  height : Int
  overrideRedirect : Bool
  mapState : Nat
  deriving Repr, DecidableEq

/-- Xlib IsViewable. -/
def isViewable : Nat := 2

/-- WindowFlags bitmask values of rdwm.rs. -/
def WindowFlags.NONE : Nat := 0
def WindowFlags.TILING : Nat := 1
def WindowFlags.FLOATING : Nat := 2
def WindowFlags.URGENT : Nat := 4
def WindowFlags.FULLSCREEN : Nat := 8
def WindowFlags.NEVER_FOCUS : Nat := 16
def WindowFlags.FIXED : Nat := 32

/-- The Attributes struct: a thin wrapper around a Quad. -/
structure Attributes where
  window : Quad
  deriving Repr, DecidableEq

/-- Attributes::new, which builds a Quad from an XWindowAttributes by
casting each c_int field to u32. -/
def Attributes.ofX (a : XWindowAttributes) : Attributes :=
  { window := { x := u32ofInt a.x, y := u32ofInt a.y,
                w := u32ofInt a.width, h := u32ofInt a.height } }

/-- Attributes::tiling. -/
def Attributes.tiling (q : Quad) : Attributes := { window := q }

/-- The Window struct of rdwm.rs: an X identifier plus hints and actual
attributes. -/
structure Window where
  id : Nat
  hints : Attributes
  attrs : Attributes
  deriving Repr, DecidableEq

/-- Window::new. -/
def Window.new (id : Nat) (attrs : Quad) (hints : XWindowAttributes) : Window :=
  { id := id, hints := Attributes.ofX hints, attrs := Attributes.tiling attrs }

/-- The name create_window gives every client. -/
def clientNameZero : String := "0"

/-- The Client struct: a frame/context window pairing with flags. -/
structure Client where
  name : String
  frame : Window
  context : Window
  flags : Nat
  deriving Repr, DecidableEq

/-- Client::new. -/
def Client.new (name : String) (frame context : Nat) (hints : XWindowAttributes)
    (attrs : Quad) (flags : Nat) : Client :=
  { name := name, frame := Window.new frame attrs hints,
    context := Window.new context attrs hints, flags := flags }

/-- The Workspace struct of rdwm.rs. -/
structure Workspace where
  number : Nat
  clients : List Client
  selected : Nat
  floating : Nat
  screen : Quad
  deriving Repr, DecidableEq

/-- Workspace::init. -/
def Workspace.init (number : Nat) (screen : Quad) : Workspace :=
  { number := number, clients := [], selected := 0, floating := 0, screen := screen }

/-- The hard-coded inactive border colour in update_selected. -/
def borderBlue : Nat := 0x5f316d

/-- The hard-coded active border colour in update_selected. -/
def borderYellow : Nat := 0xEEE8AA

/-- Workspace::update_selected of rdwm.rs.  The source branches on
clients.len() > self.selected (the OLD selected index).  In the first
branch it recolours the old frame and assigns index; in the second it
assigns clients.len() - 1 (usize underflow panics when the workspace is
empty).  Afterwards it recolours clients[self.selected], which panics
when the freshly assigned index is out of range.  Panics are none. -/
def Workspace.updateSelected (ws : Workspace) (index : Nat) :
    Option (Workspace × List XReq) :=
  if ws.clients.length > ws.selected then
    match ws.clients.get? ws.selected, ws.clients.get? index with
    | some oldC, some newC =>
        some ({ ws with selected := index },
              [XReq.setWindowBorder oldC.frame.id borderBlue,
               XReq.setWindowBorder newC.frame.id borderYellow])
    | _, _ => none
  else
    /- clients.len() - 1 underflows (panics) when the length is 0; in Nat
       the subtraction saturates to 0 and the get? below is then none,
       which models the same panic. -/
    match ws.clients.get? (ws.clients.length - 1) with
    | some newC =>
        some ({ ws with selected := ws.clients.length - 1 },
              [XReq.setWindowBorder newC.frame.id borderYellow])
    | none => none

/-- Workspace::create_window of rdwm.rs.  frameId is the identifier the
server hands back from XCreateSimpleWindow. -/
def Workspace.createWindow (ws : Workspace) (root : Nat)
    (attrs : XWindowAttributes) (window : Nat) (frameId : Nat) :
    Workspace × List XReq :=
  let borderWidth : Nat := 3
  let c := Client.new clientNameZero frameId window attrs
      (Quad.fromSize ws.screen.h ws.screen.w) WindowFlags.NONE
  ({ ws with clients := ws.clients ++ [c] },
   [XReq.createSimpleWindow root 0 0 (ws.screen.w / 2) ws.screen.h borderWidth,
    XReq.selectInput frameId,
    XReq.reparentWindow window frameId 0 0,
    XReq.mapWindow frameId,
    XReq.mapWindow window,
    XReq.grabButton window])

/-- The four requests arrange issues for the client at position num.
The x offset divides num * (the client's recorded frame width) by the
client count, exactly as the source does. -/
def arrangeBlock (len scrW scrH : Nat) (num : Nat) (c : Client) : List XReq :=
  [XReq.moveResizeWindow c.frame.id (num * c.frame.attrs.window.w / len) 0
     (scrW / len) scrH,
   XReq.moveResizeWindow c.context.id 0 0 (scrW / len) scrH,
   XReq.mapWindow c.frame.id,
   XReq.mapWindow c.context.id]

/-- Workspace::arrange of rdwm.rs: move-resize and map every client,
with no flag check of any kind. -/
def Workspace.arrange (ws : Workspace) : List XReq :=
  (ws.clients.enum.map fun p =>
    arrangeBlock ws.clients.length ws.screen.w ws.screen.h p.1 p.2).flatten

/-- Workspace::destroy_window of rdwm.rs.  Indexing clients[index] panics
(none) when out of range; otherwise the five teardown requests are issued
in source order, the client is removed, and the workspace re-arranged. -/
def Workspace.destroyWindow (ws : Workspace) (root : Nat) (index : Nat) :
    Option (Workspace × List XReq) :=
  match ws.clients.get? index with
  | none => none
  | some c =>
      let ws' : Workspace := { ws with clients := ws.clients.eraseIdx index }
      some (ws',
        [XReq.unmapWindow c.context.id,
         XReq.unmapWindow c.frame.id,
         XReq.reparentWindow c.context.id root 0 0,
         XReq.destroyWindow c.context.id,
         XReq.destroyWindow c.frame.id] ++ ws'.arrange)

/-- The manager state.  The display handle is not modelled (every request
through it is recorded in the trace instead); the process-global
WM_DETECTED mutex is carried here as a plain Bool. -/
structure Manager where
  root : Nat
  workspaces : List Workspace
  current : Nat
  wmDetected : Bool
  deriving Repr, DecidableEq

/-- The fields of XUnmapEvent the source reads. -/
structure XUnmapEvent where
  event : Nat
  window : Nat
  deriving Repr, DecidableEq

/-- Position of the first client whose context id equals w
(the iter().enumerate().find of the source). -/
def findContextIdx (w : Nat) : List Client → Option Nat
  | [] => none
  | c :: cs =>
      if c.context.id = w then some 0 else (findContextIdx w cs).map (· + 1)

/-- Position of the first client whose frame id equals w. -/
def findFrameIdx (w : Nat) : List Client → Option Nat
  | [] => none
  | c :: cs =>
      if c.frame.id = w then some 0 else (findFrameIdx w cs).map (· + 1)

/-- Rdwm::on_unmap_notify of rdwm.rs.  Ignores events whose event field is
the root; then the expect calls on get_current and on the find panic
(none) when there is no current workspace or no client owns the context;
otherwise destroy_window runs on the found position. -/
def Manager.onUnmapNotify (r : Manager) (e : XUnmapEvent) :
    Option (Manager × List XReq) :=
  if e.event = r.root then some (r, [])
  else
    match r.workspaces.get? r.current with
    | none => none
    | some ws =>
        match findContextIdx e.window ws.clients with
        | none => none
        | some num =>
            match ws.destroyWindow r.root num with
            | none => none
            | some (ws', tr) =>
                some ({ r with workspaces := r.workspaces.set r.current ws' }, tr)

/-- Rdwm::frame of rdwm.rs.  attrsResult is the XGetWindowAttributes
reply: none models a zero Status, on which the source asserts (panics).
frameId is the fresh id XCreateSimpleWindow would return. -/
def Manager.frame (r : Manager) (window : Nat) (alreadyExisting : Bool)
    (attrsResult : Option XWindowAttributes) (frameId : Nat) :
    Option (Manager × List XReq) :=
  match attrsResult with
  | none => none
  | some attrs =>
      if alreadyExisting &&
          (attrs.overrideRedirect || attrs.mapState != isViewable) then
        some (r, [])
      else
        match r.workspaces.get? r.current with
        | none => none
        | some ws =>
            let res := ws.createWindow r.root attrs window frameId
            let r' : Manager :=
              { r with workspaces := r.workspaces.set r.current res.1 }
            some (r', res.2 ++ [XReq.addToSaveSet window] ++ res.1.arrange)

/-- Rdwm::on_enter_notify of rdwm.rs: selects the client whose frame
matches the event window, if any, and calls update_selected on it. -/
def Manager.onEnterNotify (r : Manager) (window : Nat) :
    Option (Manager × List XReq) :=
  match r.workspaces.get? r.current with
  | none => none
  | some ws =>
      match findFrameIdx window ws.clients with
      | none => some (r, [])
      | some num =>
          match ws.updateSelected num with
          | none => none
          | some (ws', tr) =>
              some ({ r with workspaces := r.workspaces.set r.current ws' }, tr)

/-- Rdwm::on_configure_request of rdwm.rs: forward the changes to the
frame as well when the window is a managed context, then to the window
itself. -/
def Manager.onConfigureRequest (r : Manager) (window : Nat) :
    Option (Manager × List XReq) :=
  match r.workspaces.get? r.current with
  | none => none
  | some ws =>
      let frameReqs :=
        match ws.clients.find? (fun c => c.context.id = window) with
        | some c => [XReq.configureWindow c.frame.id]
        | none => []
      some (r, frameReqs ++ [XReq.configureWindow window])

/-- The X error code BadAccess. -/
def badAccess : Nat := 10

/-- Rdwm::on_wm_detected as installed by rdwm.rs: it logs and returns 0
for every error code; the assertion and the WM_DETECTED store are
commented out in the source, so the flag is never touched. -/
def onWmDetected (wmDetected : Bool) (errorCode : Nat) : Bool × Int :=
  (wmDetected, 0)

/-- Rdwm::on_wm_detected of the older main.rs copy: asserts that the code
is BadAccess (panicking otherwise, modelled as none), then stores true
into WM_DETECTED and returns 0. -/
def onWmDetectedMain (wmDetected : Bool) (errorCode : Nat) :
    Option (Bool × Int) :=
  if errorCode = badAccess then some (true, 0) else none

/-- The X events the rdwm.rs dispatch loop distinguishes.  mapRequest
carries the two server replies frame() consumes; keyPress carries whether
the keycode equals the grabbed Return keycode. -/
inductive XEv where
  | keyPress (isReturnKeycode : Bool)
  | buttonPress
  | enterNotify (window : Nat)
  | leaveNotify
  | focusIn
  | focusOut
  | createNotify
  | destroyNotify
  | mapNotify
  | reparentNotify
  | configureNotify
  | unmapNotify (e : XUnmapEvent)
  | mapRequest (window : Nat) (attrs : Option XWindowAttributes) (frameId : Nat)
  | configureRequest (window : Nat)
  | unknown
  deriving Repr, DecidableEq

/-- One dispatch step of the match in Rdwm::run.  Handlers that only log
leave the state alone and issue nothing; the catch-all arm is
unimplemented! (a panic, hence none). -/
def Manager.dispatch (r : Manager) : XEv → Option (Manager × List XReq)
  | XEv.keyPress isRet =>
      some (r, if isRet then [XReq.ungrabKey r.root] else [])
  | XEv.buttonPress => some (r, [])
  | XEv.enterNotify w => r.onEnterNotify w
  | XEv.leaveNotify => some (r, [])
  | XEv.focusIn => some (r, [])
  | XEv.focusOut => some (r, [])
  | XEv.createNotify => some (r, [])
  | XEv.destroyNotify => some (r, [])
  | XEv.mapNotify => some (r, [])
  | XEv.reparentNotify => some (r, [])
  | XEv.configureNotify => some (r, [])
  | XEv.unmapNotify e => r.onUnmapNotify e
  | XEv.mapRequest w attrs fid => r.frame w false attrs fid
  | XEv.configureRequest w => r.onConfigureRequest w
  | XEv.unknown => none

/-- The event loop of Rdwm::run over a finite injected event list: each
iteration first checks WM_DETECTED and returns if it is set, then reads
and dispatches the next event.  An exhausted list models the loop
blocking with no further events. -/
def Manager.eventLoop : Manager → List XEv → Option (Manager × List XReq)
  | r, [] => some (r, [])
  | r, e :: es =>
      if r.wmDetected then some (r, [])
      else
        match r.dispatch e with
        | none => none
        | some (r', tr) =>
            match r'.eventLoop es with
            | none => none
            | some (r'', tr') => some (r'', tr ++ tr')

/-- A map or unmap operation on a workspace, as driven by the event loop:
map runs create_window (the reply data passed explicitly), unmap runs
destroy_window at a position. -/
inductive WsOp where
  | mapW (attrs : XWindowAttributes) (window frameId : Nat)
  | unmapW (index : Nat)
  deriving Repr, DecidableEq

/-- Apply one map/unmap operation to a workspace, dropping the trace. -/
def applyOp (root : Nat) (ws : Workspace) : WsOp → Option Workspace
  | WsOp.mapW a w f => some (ws.createWindow root a w f).1
  | WsOp.unmapW i => (ws.destroyWindow root i).map (·.1)

/-- Run a sequence of map/unmap operations. -/
def runOps (root : Nat) : List WsOp → Workspace → Option Workspace
  | [], ws => some ws
  | op :: ops, ws => (applyOp root ws op).bind (runOps root ops)

/-! Request classifiers used to state the trace properties. -/

/-- A teardown-protocol request: unmap, reparent or destroy. -/
def isTeardownReq : XReq → Bool
  | XReq.unmapWindow _ => true
  | XReq.reparentWindow _ _ _ _ => true
  | XReq.destroyWindow _ => true
  | _ => false

def isCreateReq : XReq → Bool
  | XReq.createSimpleWindow _ _ _ _ _ _ => true
  | _ => false

def isReparentReq : XReq → Bool
  | XReq.reparentWindow _ _ _ _ => true
  | _ => false

def isSaveSetReq : XReq → Bool
  | XReq.addToSaveSet _ => true
  | _ => false

def isMapReq : XReq → Bool
  | XReq.mapWindow _ => true
  | _ => false

/-- A request arrange can emit: move-resize or map. -/
def isArrangeReq : XReq → Bool
  | XReq.moveResizeWindow _ _ _ _ _ => true
  | XReq.mapWindow _ => true
  | _ => false

/-- A move-resize request aimed at window id w. -/
def movesWindow (w : Nat) : XReq → Bool
  | XReq.moveResizeWindow id _ _ _ _ => id == w
  | _ => false

/-- A pixel rectangle (position and size). -/
structure Rect where
  x : Nat
  y : Nat
  w : Nat
  h : Nat
  deriving Repr, DecidableEq

/-- Point membership in a rectangle (half-open on both axes). -/
def Rect.containsPt (r : Rect) (px py : Nat) : Prop :=
  r.x ≤ px ∧ px < r.x + r.w ∧ r.y ≤ py ∧ py < r.y + r.h

instance (r : Rect) (px py : Nat) : Decidable (r.containsPt px py) :=
  inferInstanceAs (Decidable (_ ∧ _ ∧ _ ∧ _))


/-- Recover the frame rectangles an arrange trace assigns: arrange emits
four requests per client and the first of each block is the frame
move-resize, so the head geometry of every block of four is taken. -/
def frameMoves : List XReq → List Rect
  | XReq.moveResizeWindow _ x y w h :: _ :: _ :: _ :: rest =>
      Rect.mk x y w h :: frameMoves rest
  | _ => []

/-- The frame rectangles the workspace's arrange assigns, read off the
request trace. -/
def Workspace.assignedFrameRects (ws : Workspace) : List Rect :=
  frameMoves ws.arrange

/-- The rectangle arrange gives the i-th of N tiled frames on a screen of
width W and height H, once every recorded client width equals W. -/
def tileRect (N W H i : Nat) : Rect :=
  { x := i * W / N, y := 0, w := W / N, h := H }

/-- Some rectangle of the list contains the point. -/
def coversPt (rects : List Rect) (px py : Nat) : Prop :=
  ∃ r ∈ rects, r.containsPt px py

instance (rects : List Rect) (px py : Nat) :
    Decidable (coversPt rects px py) :=
  inferInstanceAs (Decidable (∃ r ∈ rects, r.containsPt px py))

/-- No two rectangles of the list (by position) share a point. -/
def pairwiseDisjoint (rects : List Rect) : Prop :=
  ∀ i j ri rj, i < j → rects.get? i = some ri → rects.get? j = some rj →
    ∀ px py, ¬ (ri.containsPt px py ∧ rj.containsPt px py)

/-- Every client's recorded frame width equals the workspace's screen
width; create_window establishes this and destroy_window preserves it. -/
def widthInv (ws : Workspace) : Prop :=
  ∀ c ∈ ws.clients, c.frame.attrs.window.w = ws.screen.w

/-! Claim formalisations taken from the spec's words (used to exhibit
counterexamples); each is compared against the behaviour of the
definitions above, which were translated from the source. -/

/-- C2 as the spec states it: handling a MapRequest through
frame(window, already_existing = false) emits exactly one
CreateSimpleWindow, one ReparentWindow (context under the frame at
offset (0,0)), one AddToSaveSet and exactly two MapWindow requests, and
these appear in that order. -/
def c2Spec (r : Manager) (window : Nat) (attrs : XWindowAttributes)
    (frameId : Nat) : Prop :=
  ∃ r' tr, r.frame window false (some attrs) frameId = some (r', tr) ∧
    tr.countP isCreateReq = 1 ∧ tr.countP isReparentReq = 1 ∧
    tr.countP isSaveSetReq = 1 ∧ tr.countP isMapReq = 2 ∧
    ∃ x y w h b,
      tr.filter (fun q =>
          isCreateReq q || isReparentReq q || isSaveSetReq q || isMapReq q) =
        [XReq.createSimpleWindow r.root x y w h b,
         XReq.reparentWindow window frameId 0 0,
         XReq.addToSaveSet window,
         XReq.mapWindow frameId,
         XReq.mapWindow window]

/-- C4 as the spec states it: a failed XGetWindowAttributes reply makes
frame() abort only that single operation — it returns normally, with the
manager state (and so the client count) unchanged and no requests
issued, and the event loop keeps running. -/
def c4Spec (r : Manager) (window frameId : Nat) : Prop :=
  r.frame window false none frameId = some (r, [])

/-- C6 as the spec states it: arrange skips every client carrying the
FLOATING or FIXED flag — such a client receives no move-resize request
and so retains its previously assigned geometry. -/
def c6Spec (ws : Workspace) : Prop :=
  ∀ c ∈ ws.clients,
    c.flags &&& (WindowFlags.FLOATING ||| WindowFlags.FIXED) ≠ 0 →
      ws.arrange.countP (movesWindow c.frame.id) = 0

/-- C7 as the spec states it: the frame rectangles assigned by arrange
partition the screen — their union is exactly the screen rectangle and
no two of them share a pixel. -/
def c7Spec (ws : Workspace) : Prop :=
  (∀ px py, (px < ws.screen.w ∧ py < ws.screen.h) ↔
      coversPt ws.assignedFrameRects px py) ∧
  pairwiseDisjoint ws.assignedFrameRects

/-- C8 as the spec states it: the client create_window appends carries
the TILING flag. -/
def c8Spec : Prop :=
  ∀ (ws : Workspace) (root : Nat) (attrs : XWindowAttributes)
    (window frameId : Nat),
    ∃ c, (ws.createWindow root attrs window frameId).1.clients.getLast?
          = some c ∧
      c.flags &&& WindowFlags.TILING ≠ 0

/-! Concrete fixtures for witnesses and counterexamples. -/

/-- Attributes of an ordinary viewable 640 x 480 window. -/
def attrs0 : XWindowAttributes :=
  { x := 0, y := 0, width := 640, height := 480,
    overrideRedirect := false, mapState := 2 }

/-- An empty workspace on a 10 x 8 screen. -/
def ws0 : Workspace := Workspace.init 0 (Quad.fromSize 8 10)

/-- A manager owning the single empty workspace. -/
def mgr0 : Manager :=
  { root := 1, workspaces := [ws0], current := 0, wmDetected := false }

/-- The client create_window appends for context 257 with frame id 7. -/
def clientOne : Client :=
  Client.new clientNameZero 7 257 attrs0 (Quad.fromSize 8 10) WindowFlags.NONE

/-- The workspace after framing that one client. -/
def wsOne : Workspace :=
  { number := 0, clients := [clientOne], selected := 0, floating := 0,
    screen := Quad.fromSize 8 10 }

/-- The manager after framing that one client. -/
def mgrOne : Manager :=
  { root := 1, workspaces := [wsOne], current := 0, wmDetected := false }

/-- The full request trace of framing context 257 into frame 7 on mgr0. -/
def c2Trace : List XReq :=
  [XReq.createSimpleWindow 1 0 0 5 8 3,
   XReq.selectInput 7,
   XReq.reparentWindow 257 7 0 0,
   XReq.mapWindow 7,
   XReq.mapWindow 257,
   XReq.grabButton 257,
   XReq.addToSaveSet 257,
   XReq.moveResizeWindow 7 0 0 10 8,
   XReq.moveResizeWindow 257 0 0 10 8,
   XReq.mapWindow 7,
   XReq.mapWindow 257]

/-- A client carrying the FLOATING flag. -/
def clientF : Client :=
  Client.new clientNameZero 7 257 attrs0 (Quad.fromSize 8 10)
    WindowFlags.FLOATING

/-- A workspace holding the one floating client. -/
def wsF : Workspace :=
  { number := 0, clients := [clientF], selected := 0, floating := 1,
    screen := Quad.fromSize 8 10 }

/-- Four map operations in a row. -/
def ops4 : List WsOp :=
  [WsOp.mapW attrs0 11 21, WsOp.mapW attrs0 12 22,
   WsOp.mapW attrs0 13 23, WsOp.mapW attrs0 14 24]

/-- The workspace after the four map operations of ops4 on ws0. -/
def ws4 : Workspace :=
  ((((ws0.createWindow 1 attrs0 11 21).1.createWindow 1 attrs0 12 22).1.createWindow
      1 attrs0 13 23).1.createWindow 1 attrs0 14 24).1

/-- Two map operations in a row. -/
def ops2 : List WsOp :=
  [WsOp.mapW attrs0 11 21, WsOp.mapW attrs0 12 22]

/-- The workspace after the two map operations of ops2 on ws0. -/
def ws2 : Workspace :=
  ((ws0.createWindow 1 attrs0 11 21).1.createWindow 1 attrs0 12 22).1

/-- A manager whose detection flag is already set. -/
def mgrDetected : Manager :=
  { root := 1, workspaces := [], current := 0, wmDetected := true }

/-! Helper lemmas about arrange traces. -/

theorem filter_flatten_nil {p : XReq → Bool} :
    ∀ L : List (List XReq), (∀ l ∈ L, l.filter p = []) →
      L.flatten.filter p = [] := by
  intro L
  induction L with
  | nil => intro _; rfl
  | cons hd tl ih =>
      intro h
      rw [List.flatten_cons, List.filter_append, h hd (by simp),
        ih fun l hl => h l (by simp [hl])]
      rfl

theorem arrangeBlock_filter_teardown (len W H n : Nat) (c : Client) :
    (arrangeBlock len W H n c).filter isTeardownReq = [] := rfl

/-- arrange never issues an unmap, reparent or destroy request. -/
theorem arrange_filter_teardown (ws : Workspace) :
    ws.arrange.filter isTeardownReq = [] := by
  unfold Workspace.arrange
  exact filter_flatten_nil _ (by
    intro l hl
    obtain ⟨p, _, rfl⟩ := List.mem_map.mp hl
    exact arrangeBlock_filter_teardown _ _ _ _ _)

theorem all_flatten {p : XReq → Bool} :
    ∀ L : List (List XReq), (∀ l ∈ L, l.all p = true) →
      L.flatten.all p = true := by
  intro L
  induction L with
  | nil => intro _; rfl
  | cons hd tl ih =>
      intro h
      rw [List.flatten_cons, List.all_append, h hd (by simp),
        ih fun l hl => h l (by simp [hl])]
      rfl

/-- Every request arrange issues is a move-resize or a map. -/
theorem arrange_all_arrangeReq (ws : Workspace) :
    ws.arrange.all isArrangeReq = true := by
  unfold Workspace.arrange
  exact all_flatten _ (by
    intro l hl
    obtain ⟨p, _, rfl⟩ := List.mem_map.mp hl
    rfl)

theorem countP_flatten {p : XReq → Bool} :
    ∀ L : List (List XReq),
      L.flatten.countP p = (L.map fun l => l.countP p).sum := by
  intro L
  induction L with
  | nil => rfl
  | cons hd tl ih => rw [List.flatten_cons, List.countP_append, ih]; rfl

/-- arrange issues exactly two map requests per client. -/
theorem arrange_countP_map (ws : Workspace) :
    ws.arrange.countP isMapReq = 2 * ws.clients.length := by
  unfold Workspace.arrange
  rw [countP_flatten, List.map_map]
  have h : ∀ l : List (Nat × Client), ∀ k : Nat,
      ((l.map fun p => (arrangeBlock ws.clients.length ws.screen.w
          ws.screen.h p.1 p.2).countP isMapReq)).sum = 2 * l.length := by
    intro l
    induction l with
    | nil => intro _; rfl
    | cons hd tl ih =>
        intro k
        have hblk : (arrangeBlock ws.clients.length ws.screen.w ws.screen.h
            hd.1 hd.2).countP isMapReq = 2 := rfl
        simp only [List.map_cons, List.sum_cons, hblk, ih 0, List.length_cons]
        ring
  have := h ws.clients.enum 0
  simpa [Function.comp] using this

/-! C3 — code_bug.  The spec's contract for the installed error callback
says a BadAccess during startup sets the manager-detected flag; the
handler rdwm.rs actually installs (Rdwm::on_wm_detected) only logs and
returns 0 for every code — the assertion and the WM_DETECTED store are
commented out — so the flag is never set, for BadAccess included.  (The
older main.rs copy sets the flag on BadAccess but panics on any other
code, violating the other half of the contract.) -/

/-- C3: the installed error callback leaves the manager-detected flag
untouched and returns 0 on every error code, BadAccess included — it
never sets the flag as the spec requires. -/
theorem c3_handler_never_sets_flag :
    ∀ (d : Bool) (c : Nat), onWmDetected d c = (d, 0) ∧
      onWmDetected false badAccess = (false, 0) :=
  fun d c => ⟨rfl, rfl⟩

/-! C4 — corrected.  On a failed XGetWindowAttributes reply the source
does not abort just the one operation: it asserts, i.e. panics, tearing
the whole event loop down.  The client count is indeed unchanged and no
framing request has been issued at that point. -/

/-- C4 counterexample: on a failed attributes reply, frame() does not
return normally with the state unchanged — it panics. -/
theorem c4_counterexample : ¬ c4Spec mgr0 257 7 := by
  intro h
  exact Option.noConfusion h

/-- C4 as amended: a failed XGetWindowAttributes reply makes frame()
panic (the assert), with no framing request issued and no state change;
the panic propagates, so an event loop that meets such a MapRequest
terminates instead of continuing. -/
theorem c4_attrs_failure_panics :
    (∀ (r : Manager) (w : Nat) (b : Bool) (fid : Nat),
        r.frame w b none fid = none) ∧
    (∀ (r : Manager) (w fid : Nat) (es : List XEv), r.wmDetected = false →
        r.eventLoop (XEv.mapRequest w none fid :: es) = none) := by
  constructor
  · intro r w b fid; rfl
  · intro r w fid es h
    simp [Manager.eventLoop, h, Manager.dispatch, Manager.frame]

/-- C4 witness: the amended theorem applied to the concrete manager. -/
theorem c4_attrs_failure_panics_witness :
    mgr0.eventLoop [XEv.mapRequest 5 none 7] = none :=
  c4_attrs_failure_panics.2 mgr0 5 7 [] rfl

/-! C5 — code_bug.  update_selected branches on
clients.len() > self.selected — the OLD selected index — instead of
checking the new index as its own comment and the spec describe; with a
too-large new index it assigns it anyway and the following border update
indexes out of bounds and panics instead of snapping to count - 1. -/

/-- C5: whenever the old selected index is in range but the new index is
at or past the client count, update_selected panics (none) instead of
snapping the selection to count - 1. -/
theorem c5_update_selected_panics (ws : Workspace) (index : Nat)
    (hsel : ws.selected < ws.clients.length)
    (hidx : ws.clients.length ≤ index) :
    ws.updateSelected index = none := by
  unfold Workspace.updateSelected
  rw [if_pos hsel]
  have h2 : ws.clients.get? index = none := List.get?_eq_none.mpr hidx
  have h1 : ∃ c, ws.clients.get? ws.selected = some c :=
    ⟨_, List.get?_eq_get hsel⟩
  obtain ⟨c, hc⟩ := h1
  rw [hc, h2]

/-- C5 witness: one client, old selection 0, new index 5 — the code
panics where the spec says the selection becomes count - 1 = 0. -/
theorem c5_update_selected_panics_witness :
    wsOne.updateSelected 5 = none :=
  c5_update_selected_panics wsOne 5 (by decide) (by decide)

/-! C10 — confirmed.  On an empty workspace every call to
update_selected panics: the fallback branch computes count - 1 on a zero
usize (underflow) and the final border update indexes out of range. -/

/-- C10: update_selected on a workspace with no clients panics for every
index. -/
theorem c10_update_selected_empty_panics (ws : Workspace) (index : Nat)
    (h : ws.clients = []) : ws.updateSelected index = none := by
  unfold Workspace.updateSelected
  rw [h]
  rfl

/-- C10 witness: the empty workspace panics on update_selected 3. -/
theorem c10_update_selected_empty_panics_witness :
    ws0.updateSelected 3 = none :=
  c10_update_selected_empty_panics ws0 3 rfl

/-! C8 — corrected.  create_window appends the client with
WindowFlags::NONE, not TILING (Client::tile exists but is not used); the
supplied window attributes do become the client's hints. -/

/-- C8 counterexample: the client appended by create_window does not
carry the TILING flag. -/
theorem c8_counterexample : ¬ c8Spec := by
  intro h
  obtain ⟨c, hl, hf⟩ := h ws0 1 attrs0 11 21
  have hcomp : (ws0.createWindow 1 attrs0 11 21).1.clients.getLast? =
      some (Client.new clientNameZero 21 11 attrs0 (Quad.fromSize 8 10)
        WindowFlags.NONE) := rfl
  rw [hcomp] at hl
  injection hl with hl
  subst hl
  exact hf rfl

/-- C8 as amended: every client appended by create_window carries the
NONE flag set (TILING is not set) and the supplied window attributes as
its hints. -/
theorem c8_appended_client_flags (ws : Workspace) (root : Nat)
    (attrs : XWindowAttributes) (window frameId : Nat) :
    ∃ c, (ws.createWindow root attrs window frameId).1.clients.getLast?
          = some c ∧
      c.flags = WindowFlags.NONE ∧
      c.flags &&& WindowFlags.TILING = 0 ∧
      c.frame.hints = Attributes.ofX attrs ∧
      c.context.hints = Attributes.ofX attrs := by
  refine ⟨Client.new clientNameZero frameId window attrs
      (Quad.fromSize ws.screen.h ws.screen.w) WindowFlags.NONE,
    ?_, rfl, show WindowFlags.NONE &&& WindowFlags.TILING = 0 by decide,
    rfl, rfl⟩
  unfold Workspace.createWindow
  exact List.getLast?_concat _

/-! C9 — confirmed.  The detection flag is only ever written to true (the
sole store in the repository is the main.rs handler storing true); no
dispatch path touches it; and the loop checks it before reading the next
event, so once set the loop returns without dispatching anything. -/

theorem onEnterNotify_preserves_flag (r r' : Manager) (w : Nat)
    (tr : List XReq) (h : r.onEnterNotify w = some (r', tr)) :
    r'.wmDetected = r.wmDetected := by
  unfold Manager.onEnterNotify at h
  repeat' split at h
  all_goals first
    | exact Option.noConfusion h
    | (cases h; rfl)

theorem onUnmapNotify_preserves_flag (r r' : Manager) (e : XUnmapEvent)
    (tr : List XReq) (h : r.onUnmapNotify e = some (r', tr)) :
    r'.wmDetected = r.wmDetected := by
  unfold Manager.onUnmapNotify at h
  repeat' split at h
  all_goals first
    | exact Option.noConfusion h
    | (cases h; rfl)

theorem frame_preserves_flag (r r' : Manager) (w : Nat) (b : Bool)
    (attrs : Option XWindowAttributes) (fid : Nat) (tr : List XReq)
    (h : r.frame w b attrs fid = some (r', tr)) :
    r'.wmDetected = r.wmDetected := by
  unfold Manager.frame at h
  repeat' split at h
  all_goals first
    | exact Option.noConfusion h
    | (cases h; rfl)

theorem onConfigureRequest_preserves_flag (r r' : Manager) (w : Nat)
    (tr : List XReq) (h : r.onConfigureRequest w = some (r', tr)) :
    r'.wmDetected = r.wmDetected := by
  unfold Manager.onConfigureRequest at h
  repeat' split at h
  all_goals first
    | exact Option.noConfusion h
    | (cases h; rfl)

theorem dispatch_preserves_flag (r r' : Manager) (e : XEv) (tr : List XReq)
    (h : r.dispatch e = some (r', tr)) : r'.wmDetected = r.wmDetected := by
  cases e <;>
    first
      | exact onEnterNotify_preserves_flag _ _ _ _ h
      | exact onUnmapNotify_preserves_flag _ _ _ _ h
      | exact frame_preserves_flag _ _ _ _ _ _ _ h
      | exact onConfigureRequest_preserves_flag _ _ _ _ h
      | (simp only [Manager.dispatch] at h; cases h <;> rfl)

/-- C9: the detection flag is write-once and monotonic, and a set flag
stops the event loop at once.  (a) the installed rdwm.rs handler never
writes the flag at all; (b) the main.rs handler, the repository's only
store, only ever writes true; (c) no dispatch path lowers a set flag;
(d) once the flag is set, the loop returns before dispatching any
further event, touching neither state nor trace. -/
theorem c9_flag_monotonic_loop_stops :
    (∀ (d : Bool) (c : Nat), (onWmDetected d c).1 = d) ∧
    (∀ (d : Bool) (c : Nat) (res : Bool × Int),
        onWmDetectedMain d c = some res → res.1 = true) ∧
    (∀ (r r' : Manager) (e : XEv) (tr : List XReq),
        r.dispatch e = some (r', tr) → r.wmDetected = true →
          r'.wmDetected = true) ∧
    (∀ (r : Manager) (evs : List XEv), r.wmDetected = true →
        r.eventLoop evs = some (r, [])) := by
  refine ⟨fun d c => rfl, ?_, ?_, ?_⟩
  · intro d c res h
    unfold onWmDetectedMain at h
    split at h
    · cases h; rfl
    · exact Option.noConfusion h
  · intro r r' e tr h hset
    rw [dispatch_preserves_flag r r' e tr h, hset]
  · intro r evs h
    cases evs with
    | nil => rfl
    | cons e es => simp [Manager.eventLoop, h]

/-- C9 witness: a manager with the flag set returns from the loop without
dispatching even a would-panic event. -/
theorem c9_flag_monotonic_loop_stops_witness :
    mgrDetected.eventLoop [XEv.unknown] = some (mgrDetected, []) :=
  c9_flag_monotonic_loop_stops.2.2.2 mgrDetected [XEv.unknown] rfl

/-! C1 — confirmed.  On an UnmapNotify for a managed context, rdwm.rs
finds the client by context id and destroy_window issues exactly
UnmapWindow(context), UnmapWindow(frame), ReparentWindow(context, root),
DestroyWindow(context), DestroyWindow(frame), in that order; everything
after them is the re-arrange, which issues no teardown-kind request. -/

/-- C1: the trace an UnmapNotify on a managed context emits starts with
exactly the five teardown requests in the specified order, and the rest
of the trace contains no unmap, reparent or destroy request. -/
theorem c1_unmap_teardown_order (r : Manager) (e : XUnmapEvent)
    (ws : Workspace) (num : Nat) (c : Client)
    (hroot : e.event ≠ r.root)
    (hws : r.workspaces.get? r.current = some ws)
    (hfind : findContextIdx e.window ws.clients = some num)
    (hc : ws.clients.get? num = some c) :
    ∃ r' rest,
      r.onUnmapNotify e =
        some (r',
          [XReq.unmapWindow c.context.id,
           XReq.unmapWindow c.frame.id,
           XReq.reparentWindow c.context.id r.root 0 0,
           XReq.destroyWindow c.context.id,
           XReq.destroyWindow c.frame.id] ++ rest) ∧
      rest.filter isTeardownReq = [] := by
  unfold Manager.onUnmapNotify Workspace.destroyWindow
  simp only [if_neg hroot, hws, hfind, hc]
  exact ⟨_, _, rfl, arrange_filter_teardown _⟩

/-- C1 witness: the one-client manager, unmapping context 257. -/
theorem c1_unmap_teardown_order_witness :
    ∃ r' rest,
      mgrOne.onUnmapNotify { event := 99, window := 257 } =
        some (r',
          [XReq.unmapWindow clientOne.context.id,
           XReq.unmapWindow clientOne.frame.id,
           XReq.reparentWindow clientOne.context.id mgrOne.root 0 0,
           XReq.destroyWindow clientOne.context.id,
           XReq.destroyWindow clientOne.frame.id] ++ rest) ∧
      rest.filter isTeardownReq = [] :=
  c1_unmap_teardown_order mgrOne { event := 99, window := 257 } wsOne 0
    clientOne (by decide) rfl rfl rfl

/-! C2 — corrected.  frame() does emit exactly one CreateSimpleWindow,
one ReparentWindow (context under frame at (0,0)) and one AddToSaveSet,
but the AddToSaveSet comes after the two MapWindow requests of
create_window, not before them, and the re-arrange that follows emits
two further MapWindow requests per client — four in total already for a
single client, not two. -/

/-- C2 counterexample: framing context 257 on the empty workspace emits
four MapWindow requests, not two. -/
theorem c2_counterexample : ¬ c2Spec mgr0 257 attrs0 7 := by
  intro h
  obtain ⟨r', tr, heq, -, -, -, h4, -⟩ := h
  have hcomp : mgr0.frame 257 false (some attrs0) 7 =
      some (mgrOne, c2Trace) := rfl
  rw [hcomp] at heq
  injection heq with heq
  injection heq with h1 h2
  subst h2
  exact absurd h4 (by decide)

/-- C2 as amended: frame(window, already_existing = false) emits exactly
one CreateSimpleWindow, one SelectInput, one ReparentWindow (context
under the frame at (0,0)), MapWindow(frame), MapWindow(context), one
GrabButton, then one AddToSaveSet, in that order — the save-set request
follows the two map requests — followed by the re-arrange, which emits
only move-resize and map requests, two map requests per client. -/
theorem c2_frame_request_sequence (r : Manager) (ws : Workspace)
    (window frameId : Nat) (attrs : XWindowAttributes)
    (hws : r.workspaces.get? r.current = some ws) :
    ∃ r' rest,
      r.frame window false (some attrs) frameId =
        some (r',
          [XReq.createSimpleWindow r.root 0 0 (ws.screen.w / 2)
             ws.screen.h 3,
           XReq.selectInput frameId,
           XReq.reparentWindow window frameId 0 0,
           XReq.mapWindow frameId,
           XReq.mapWindow window,
           XReq.grabButton window,
           XReq.addToSaveSet window] ++ rest) ∧
      rest.all isArrangeReq = true ∧
      rest.countP isMapReq = 2 * (ws.clients.length + 1) := by
  unfold Manager.frame
  simp only [hws, Bool.false_and, Bool.false_eq_true, if_false]
  refine ⟨_, _, rfl, arrange_all_arrangeReq _, ?_⟩
  rw [arrange_countP_map]
  simp [Workspace.createWindow]

/-- C2 witness for the amended sequence: the concrete empty-workspace
manager framing context 257. -/
theorem c2_frame_request_sequence_witness :
    ∃ r' rest,
      mgr0.frame 257 false (some attrs0) 7 =
        some (r',
          [XReq.createSimpleWindow mgr0.root 0 0 (ws0.screen.w / 2)
             ws0.screen.h 3,
           XReq.selectInput 7,
           XReq.reparentWindow 257 7 0 0,
           XReq.mapWindow 7,
           XReq.mapWindow 257,
           XReq.grabButton 257,
           XReq.addToSaveSet 257] ++ rest) ∧
      rest.all isArrangeReq = true ∧
      rest.countP isMapReq = 2 * (ws0.clients.length + 1) :=
  c2_frame_request_sequence mgr0 ws0 257 7 attrs0 rfl

/-! C6 — corrected.  arrange iterates over every client of the workspace
with no flag check whatsoever: a FLOATING or FIXED client is move-resized
and mapped exactly like a tiled one, so it does not retain its previous
geometry.  The per-client geometry itself is as the spec says (with the x
offset computed from the client's recorded frame width, which
create_window sets to the screen width). -/

/-- C6 counterexample: on a workspace holding one FLOATING client,
arrange still emits a move-resize for that client's frame — the client
is not skipped. -/
theorem c6_counterexample : ¬ c6Spec wsF := by
  intro h
  have hm : clientF ∈ wsF.clients := by decide
  have hfl : clientF.flags &&&
      (WindowFlags.FLOATING ||| WindowFlags.FIXED) ≠ 0 := by decide
  have := h clientF hm hfl
  exact absurd this (by decide)

theorem drop_four_block (a b c d : XReq) (l : List XReq) (n : Nat) :
    (a :: b :: c :: d :: l).drop (4 * (n + 1)) = l.drop (4 * n) := by
  rw [show 4 * (n + 1) = 4 * n + 4 from by ring]
  rfl

theorem arrange_aux (len W H : Nat) :
    ∀ (l : List Client) (k i : Nat) (c : Client), l.get? i = some c →
      ((((l.enumFrom k).map fun p =>
          arrangeBlock len W H p.1 p.2).flatten).drop (4 * i)).take 4
        = arrangeBlock len W H (k + i) c := by
  intro l
  induction l with
  | nil => intro k i c h; exact Option.noConfusion h
  | cons hd tl ih =>
      intro k i c h
      cases i with
      | zero =>
          cases h
          rw [Nat.add_zero]
          rfl
      | succ n =>
          have h' : tl.get? n = some c := h
          have hk : k + 1 + n = k + (n + 1) := by omega
          have hih := ih (k + 1) n c h'
          rw [hk] at hih
          refine Eq.trans (congrArg (List.take 4) ?_) hih
          exact drop_four_block _ _ _ _
            (((tl.enumFrom (k + 1)).map fun p =>
              arrangeBlock len W H p.1 p.2).flatten) n

/-- C6 as amended: arrange assigns client i (whatever its flags, FLOATING
and FIXED included) the frame rectangle (i * W / N, 0, W / N, H) and the
context rectangle (0, 0, W / N, H), and maps both, provided the client's
recorded frame width is the screen width W — which create_window
guarantees.  No client is skipped. -/
theorem c6_arrange_tiles_all_clients (ws : Workspace) (i : Nat) (c : Client)
    (hc : ws.clients.get? i = some c)
    (hw : c.frame.attrs.window.w = ws.screen.w) :
    (ws.arrange.drop (4 * i)).take 4 =
      [XReq.moveResizeWindow c.frame.id
         (i * ws.screen.w / ws.clients.length) 0
         (ws.screen.w / ws.clients.length) ws.screen.h,
       XReq.moveResizeWindow c.context.id 0 0
         (ws.screen.w / ws.clients.length) ws.screen.h,
       XReq.mapWindow c.frame.id,
       XReq.mapWindow c.context.id] := by
  have h := arrange_aux ws.clients.length ws.screen.w ws.screen.h
    ws.clients 0 i c hc
  rw [Nat.zero_add] at h
  unfold Workspace.arrange
  rw [show ws.clients.enum = ws.clients.enumFrom 0 from rfl, h]
  unfold arrangeBlock
  rw [hw]

/-- C6 witness: the amended theorem at the one-client workspace. -/
theorem c6_arrange_tiles_all_clients_witness :
    (wsOne.arrange.drop (4 * 0)).take 4 =
      [XReq.moveResizeWindow clientOne.frame.id
         (0 * wsOne.screen.w / wsOne.clients.length) 0
         (wsOne.screen.w / wsOne.clients.length) wsOne.screen.h,
       XReq.moveResizeWindow clientOne.context.id 0 0
         (wsOne.screen.w / wsOne.clients.length) wsOne.screen.h,
       XReq.mapWindow clientOne.frame.id,
       XReq.mapWindow clientOne.context.id] :=
  c6_arrange_tiles_all_clients wsOne 0 clientOne rfl rfl

/-! C7 — corrected.  The assigned frame rectangles are pairwise disjoint
and contained in the screen, but their union equals the screen rectangle
only when the client count divides the screen width: each frame gets the
truncated width W / N at offset i * W / N, so W mod N pixel columns stay
uncovered (they are rounding loss, not border pixels). -/

theorem frameMoves_block (len W H k : Nat) (c : Client) (rest : List XReq) :
    frameMoves (arrangeBlock len W H k c ++ rest) =
      Rect.mk (k * c.frame.attrs.window.w / len) 0 (W / len) H ::
        frameMoves rest := rfl

theorem frameMoves_aux (len W H : Nat) :
    ∀ (l : List Client) (k : Nat),
      frameMoves (((l.enumFrom k).map fun p =>
          arrangeBlock len W H p.1 p.2).flatten) =
        (l.enumFrom k).map fun p =>
          Rect.mk (p.1 * p.2.frame.attrs.window.w / len) 0 (W / len) H := by
  intro l
  induction l with
  | nil => intro k; rfl
  | cons hd tl ih =>
      intro k
      show frameMoves (arrangeBlock len W H k hd ++
          ((tl.enumFrom (k + 1)).map fun p =>
            arrangeBlock len W H p.1 p.2).flatten) = _
      rw [frameMoves_block, ih (k + 1)]
      rfl

theorem enumFrom_rects_range' (len W H : Nat) :
    ∀ (l : List Client) (k : Nat),
      (∀ c ∈ l, c.frame.attrs.window.w = W) →
      ((l.enumFrom k).map fun p =>
          Rect.mk (p.1 * p.2.frame.attrs.window.w / len) 0 (W / len) H) =
        (List.range' k l.length).map fun i =>
          Rect.mk (i * W / len) 0 (W / len) H := by
  intro l
  induction l with
  | nil => intro k _; rfl
  | cons hd tl ih =>
      intro k h
      have hhd : hd.frame.attrs.window.w = W := h hd (by simp)
      show Rect.mk (k * hd.frame.attrs.window.w / len) 0 (W / len) H ::
          ((tl.enumFrom (k + 1)).map fun p =>
            Rect.mk (p.1 * p.2.frame.attrs.window.w / len) 0 (W / len) H) = _
      rw [hhd, ih (k + 1) fun c hc => h c (by simp [hc])]
      rfl

/-- Under the width invariant, the frame rectangles read off the arrange
trace are exactly the N truncated columns. -/
theorem assignedFrameRects_range (ws : Workspace) (hw : widthInv ws) :
    ws.assignedFrameRects =
      (List.range ws.clients.length).map
        (tileRect ws.clients.length ws.screen.w ws.screen.h) := by
  unfold Workspace.assignedFrameRects Workspace.arrange
  rw [show ws.clients.enum = ws.clients.enumFrom 0 from rfl]
  rw [frameMoves_aux, enumFrom_rects_range' _ _ _ ws.clients 0 hw,
    ← List.range_eq_range']
  rfl

theorem div_add_div_le (a b n : Nat) (hn : 0 < n) :
    a / n + b / n ≤ (a + b) / n := by
  rw [Nat.le_div_iff_mul_le hn]
  calc (a / n + b / n) * n = a / n * n + b / n * n := by ring
    _ ≤ a + b := Nat.add_le_add (Nat.div_mul_le_self a n)
        (Nat.div_mul_le_self b n)

theorem tile_x_mono (N W : Nat) (hN : 0 < N) (i j : Nat) (hij : i < j) :
    i * W / N + W / N ≤ j * W / N := by
  have h1 : i * W / N + W / N ≤ (i * W + W) / N := div_add_div_le _ _ _ hN
  have h2 : (i * W + W) / N ≤ j * W / N := by
    apply Nat.div_le_div_right
    rw [show i * W + W = (i + 1) * W from by ring]
    exact Nat.mul_le_mul_right W hij
  omega

theorem rects_get?_range {N W H i : Nat} {ri : Rect}
    (hi : ((List.range N).map (tileRect N W H)).get? i = some ri) :
    i < N ∧ ri = tileRect N W H i := by
  by_cases h : i < N
  · refine ⟨h, ?_⟩
    rw [List.get?_map, List.get?_range h] at hi
    exact (Option.some.inj hi).symm
  · exfalso
    rw [List.get?_eq_none.mpr (by simpa using Nat.le_of_not_lt h)] at hi
    exact Option.noConfusion hi

/-- No two of the N truncated columns share a pixel. -/
theorem tile_disjoint (N W H : Nat) (hN : 0 < N) :
    pairwiseDisjoint ((List.range N).map (tileRect N W H)) := by
  intro i j ri rj hij hi hj px py hcontra
  obtain ⟨hiN, rfl⟩ := rects_get?_range hi
  obtain ⟨hjN, rfl⟩ := rects_get?_range hj
  obtain ⟨⟨hxi, hxi2, -, -⟩, ⟨hxj, -, -, -⟩⟩ := hcontra
  have hmono := tile_x_mono N W hN i j hij
  unfold tileRect at hxi hxi2 hxj
  simp only at hxi hxi2 hxj
  omega

/-- When N divides W, every screen point lies in one of the columns. -/
theorem tile_covers_mp (N W H : Nat) (hN : 0 < N) (hdvd : N ∣ W)
    (px py : Nat) (hpx : px < W) (hpy : py < H) :
    coversPt ((List.range N).map (tileRect N W H)) px py := by
  have hq : W / N * N = W := Nat.div_mul_cancel hdvd
  have hq0 : 0 < W / N := by
    rcases Nat.eq_zero_or_pos (W / N) with h0 | h0
    · rw [h0] at hq; omega
    · exact h0
  have hiN : px / (W / N) < N := by
    rw [Nat.div_lt_iff_lt_mul hq0]
    calc px < W := hpx
      _ = N * (W / N) := by rw [Nat.mul_comm, hq]
  refine ⟨tileRect N W H (px / (W / N)),
    List.mem_map.mpr ⟨px / (W / N), List.mem_range.mpr hiN, rfl⟩, ?_⟩
  have hxexact : px / (W / N) * W / N = px / (W / N) * (W / N) := by
    rw [show px / (W / N) * W = px / (W / N) * (W / N) * N from by
      rw [Nat.mul_assoc, hq]]
    exact Nat.mul_div_cancel _ hN
  have hlow : px / (W / N) * (W / N) ≤ px := Nat.div_mul_le_self _ _
  have hhigh : px < px / (W / N) * (W / N) + W / N := by
    have hmod := Nat.div_add_mod px (W / N)
    have hmlt : px % (W / N) < W / N := Nat.mod_lt _ hq0
    have hcomm : W / N * (px / (W / N)) = px / (W / N) * (W / N) :=
      Nat.mul_comm _ _
    omega
  refine ⟨?_, ?_, Nat.zero_le _, ?_⟩
  · show px / (W / N) * W / N ≤ px
    rw [hxexact]
    exact hlow
  · show px < px / (W / N) * W / N + W / N
    rw [hxexact]
    exact hhigh
  · show py < 0 + H
    omega

/-- Every covered point lies inside the screen. -/
theorem tile_covers_mpr (N W H : Nat) (hN : 0 < N) (px py : Nat)
    (h : coversPt ((List.range N).map (tileRect N W H)) px py) :
    px < W ∧ py < H := by
  obtain ⟨r, hr, hc⟩ := h
  obtain ⟨i, hil, rfl⟩ := List.mem_map.mp hr
  have hiN : i < N := List.mem_range.mp hil
  obtain ⟨hx1, hx2, hy1, hy2⟩ := hc
  have hiW : i * W / N + W / N ≤ W := by
    have h1 : i * W / N + W / N ≤ ((i + 1) * W) / N := by
      rw [show (i + 1) * W = i * W + W from by ring]
      exact div_add_div_le _ _ _ hN
    have h2 : ((i + 1) * W) / N ≤ (N * W) / N :=
      Nat.div_le_div_right (Nat.mul_le_mul_right W hiN)
    have h3 : N * W / N = W := Nat.mul_div_cancel_left W hN
    omega
  unfold tileRect at hx1 hx2 hy1 hy2
  simp only at hx1 hx2 hy1 hy2
  omega

theorem createWindow_widthInv (ws : Workspace) (root : Nat)
    (a : XWindowAttributes) (w fid : Nat) (h : widthInv ws) :
    widthInv (ws.createWindow root a w fid).1 := by
  intro c hc
  unfold Workspace.createWindow at hc
  simp only [List.mem_append, List.mem_singleton] at hc
  rcases hc with hc | hc
  · exact h c hc
  · subst hc; rfl

theorem applyOp_widthInv (root : Nat) (ws ws2 : Workspace) (op : WsOp)
    (h : applyOp root ws op = some ws2) (hi : widthInv ws) :
    widthInv ws2 ∧ ws2.screen = ws.screen := by
  cases op with
  | mapW a w f =>
      cases h
      exact ⟨createWindow_widthInv ws root a w f hi, rfl⟩
  | unmapW i =>
      simp only [applyOp] at h
      cases hd : ws.destroyWindow root i with
      | none => rw [hd] at h; exact Option.noConfusion h
      | some p =>
          obtain ⟨ws3, tr3⟩ := p
          rw [hd] at h
          cases h
          unfold Workspace.destroyWindow at hd
          cases hg : ws.clients.get? i with
          | none => rw [hg] at hd; exact Option.noConfusion hd
          | some c =>
              rw [hg] at hd
              cases hd
              exact ⟨fun c2 hc2 =>
                hi c2 (List.eraseIdx_subset ws.clients i hc2), rfl⟩

theorem runOps_widthInv (root : Nat) :
    ∀ (ops : List WsOp) (ws ws2 : Workspace),
      runOps root ops ws = some ws2 → widthInv ws →
        widthInv ws2 ∧ ws2.screen = ws.screen := by
  intro ops
  induction ops with
  | nil =>
      intro ws ws2 h hi
      cases h
      exact ⟨hi, rfl⟩
  | cons op ops ih =>
      intro ws ws2 h hi
      unfold runOps at h
      cases ha : applyOp root ws op with
      | none => rw [ha] at h; exact Option.noConfusion h
      | some w1 =>
          rw [ha] at h
          obtain ⟨h1, h2⟩ := applyOp_widthInv root ws w1 op ha hi
          obtain ⟨h3, h4⟩ := ih w1 ws2 h h1
          exact ⟨h3, h4.trans h2⟩

/-- C7 as amended: after any sequence of map/unmap operations starting
from a fresh workspace and ending with N > 0 clients, the frame
rectangles assigned by arrange are pairwise disjoint and contained in
the screen rectangle — both unconditionally; and whenever N divides the
screen width, their union is exactly the screen rectangle.  (When N does
not divide the width, W mod N pixel columns remain uncovered — see the
counterexample.) -/
theorem c7_partition_when_divisible (root : Nat) (ops : List WsOp)
    (screen : Quad) (ws2 : Workspace)
    (hrun : runOps root ops (Workspace.init 0 screen) = some ws2)
    (hne : ws2.clients ≠ []) :
    pairwiseDisjoint ws2.assignedFrameRects ∧
    (∀ px py, coversPt ws2.assignedFrameRects px py →
        px < screen.w ∧ py < screen.h) ∧
    (ws2.clients.length ∣ screen.w →
      ∀ px py, (px < screen.w ∧ py < screen.h) ↔
        coversPt ws2.assignedFrameRects px py) := by
  obtain ⟨hinv, hscr⟩ := runOps_widthInv root ops _ ws2 hrun
    (fun c hc => absurd hc (List.not_mem_nil c))
  have hN : 0 < ws2.clients.length := List.length_pos.mpr hne
  have hscr' : ws2.screen = screen := hscr
  have hr := assignedFrameRects_range ws2 hinv
  rw [hscr'] at hr
  refine ⟨?_, ?_, ?_⟩
  · rw [hr]
    exact tile_disjoint _ _ _ hN
  · intro px py hcov
    rw [hr] at hcov
    exact tile_covers_mpr _ _ _ hN px py hcov
  · intro hdvd px py
    rw [hr]
    constructor
    · intro ⟨hpx, hpy⟩
      exact tile_covers_mp _ _ _ hN hdvd px py hpx hpy
    · intro hcov
      exact tile_covers_mpr _ _ _ hN px py hcov

/-- C7 witness: two map operations on the 10 x 8 screen (2 divides 10,
so here the union conjunct's divisibility condition also holds). -/
theorem c7_partition_when_divisible_witness :
    pairwiseDisjoint ws2.assignedFrameRects ∧
    (∀ px py, coversPt ws2.assignedFrameRects px py →
        px < (Quad.fromSize 8 10).w ∧ py < (Quad.fromSize 8 10).h) ∧
    (ws2.clients.length ∣ (Quad.fromSize 8 10).w →
      ∀ px py, (px < (Quad.fromSize 8 10).w ∧ py < (Quad.fromSize 8 10).h) ↔
        coversPt ws2.assignedFrameRects px py) :=
  c7_partition_when_divisible 1 ops2 (Quad.fromSize 8 10) ws2 rfl (by decide)

/-- C7 counterexample: four map operations on the 10 x 8 screen end with
four tiled clients whose assigned columns (x = 0, 2, 5, 7, width 2) miss
the pixel column x = 4 — the union is not the screen rectangle. -/
theorem c7_counterexample :
    runOps 1 ops4 ws0 = some ws4 ∧ ¬ c7Spec ws4 := by
  refine ⟨rfl, ?_⟩
  intro h
  have h2 : coversPt ws4.assignedFrameRects 4 0 := (h.1 4 0).mp (by decide)
  exact absurd h2 (by decide)

end Rdwm
